import Mathlib

/-!
Verification of the curation and data-mart layer of the warehouse
order-picking ETL pipeline (src/curation.py, src/data_marts.py).

Tables are embedded as lists of structure values, one structure per table
schema.  Dates are embedded as civil day numbers (days since 0000-03-01 of
the proleptic Gregorian calendar) and timestamps as seconds since the
midnight opening day 0, so that the pandas datetime accessors used by the
source (year, month, quarter, strftime week numbers) become arithmetic on
day numbers.  SQL NULL values are embedded as Option, SQL aggregation as
grouping over the list of distinct keys, and LEFT JOIN as a find? lookup on
the join key.
-/

/-! ## Calendar arithmetic

The following functions embed the pandas datetime accessors used by
create_d_date.  Day numbers count days since 0000-03-01 (proleptic
Gregorian); the conversions are the standard civil-calendar algorithms.
-/

/-- Convert a day number to the civil (year, month, day) triple. -/
def civilFromDays (z : Nat) : Nat × Nat × Nat :=
  let era := z / 146097
  let doe := z % 146097
  let yoe := (doe - doe / 1460 + doe / 36524 - doe / 146096) / 365
  let y := yoe + era * 400
  let doy := doe - (365 * yoe + yoe / 4 - yoe / 100)
  let mp := (5 * doy + 2) / 153
  let d := doy - (153 * mp + 2) / 5 + 1
  let m := if mp < 10 then mp + 3 else mp - 9
  (if m ≤ 2 then y + 1 else y, m, d)

/-- Convert a civil (year, month, day) triple to its day number. -/
def daysFromCivil (y m d : Nat) : Nat :=
  let y2 := if m ≤ 2 then y - 1 else y
  let era := y2 / 400
  let yoe := y2 % 400
  let mp := if 2 < m then m - 3 else m + 9
  let doy := (153 * mp + 2) / 5 + d - 1
  let doe := yoe * 365 + yoe / 4 - yoe / 100 + doy
  era * 146097 + doe

/-- Calendar year of a day number (pandas .dt.year). -/
def yearOfDay (z : Nat) : Nat := (civilFromDays z).1

/-- Calendar month of a day number, 1..12 (pandas .dt.month). -/
def monthOfDay (z : Nat) : Nat := (civilFromDays z).2.1

/-- Monday-based weekday of a day number (Monday = 0).  Day 0, 0000-03-01,
is a Wednesday. -/
def weekdayMon (z : Nat) : Nat := (z + 2) % 7

/-- Zero-based day of the year of a day number (Jan 1 = 0). -/
def dayOfYear0 (z : Nat) : Nat := z - daysFromCivil (yearOfDay z) 1 1

/-- Week-of-year number in the sense of strftime %W: Monday starts the
week, days before the first Monday of the year are week 0. -/
def weekNumW (z : Nat) : Nat := (dayOfYear0 z + 7 - weekdayMon z) / 7

/-- Zero-padded two-digit decimal rendering, as produced by strftime %W
and %m. -/
def pad2 (n : Nat) : String := if n < 10 then ("0") ++ toString n else toString n

/-- Quarter of a day number, 1..4 (pandas .dt.quarter). -/
def quarterOfDay (z : Nat) : Nat := (monthOfDay z + 2) / 3

/-- The week column: strftime %Y_%W. -/
def weekStr (z : Nat) : String := toString (yearOfDay z) ++ "_" ++ pad2 (weekNumW z)

/-- The month column: strftime %Y_%m. -/
def monthStr (z : Nat) : String := toString (yearOfDay z) ++ "_" ++ pad2 (monthOfDay z)

/-- The quarter column: year + "_Q" + quarter. -/
def quarterStr (z : Nat) : String := toString (yearOfDay z) ++ "_Q" ++ toString (quarterOfDay z)

/-- The year_half column: year + "_H" + (quarter + 1) / 2. -/
def yearHalfStr (z : Nat) : String :=
  toString (yearOfDay z) ++ "_H" ++ toString ((quarterOfDay z + 1) / 2)

/-! ## Date dimension (create_d_date, curation.py lines 46-66) -/

/-- One row of the d_date dimension table. -/
structure DDateRow where
  date : Nat
  year : Nat
  week : String
  month : String
  quarter : String
  year_half : String
deriving DecidableEq

/-- The derived columns of a d_date row, each computed from the date column
of that row alone, exactly as in create_d_date. -/
def mkDDateRow (z : Nat) : DDateRow :=
  { date := z
    year := yearOfDay z
    week := weekStr z
    month := monthStr z
    quarter := quarterStr z
    year_half := yearHalfStr z }

/-- create_d_date: one row per calendar day of the inclusive range
[start_date, end_date].  pd.date_range yields the empty range when
start_date is after end_date, which the truncated subtraction reproduces.
Dates are passed as civil day numbers. -/
def create_d_date (start_date end_date : Nat) : List DDateRow :=
  (List.range (end_date + 1 - start_date)).map (fun i => mkDDateRow (start_date + i))

/-! ## Fact curation (curate_pick_data, curation.py lines 69-120) -/

/-- One staged pick-event row, with the columns consumed by the curation
and data-mart logic. -/
structure PickRow where
  product_id : String
  warehouse_section : String
  origin : Int
  order_number : String
  pick_volume : Int
  pick_timestamp : Nat
  pick_date : Nat
deriving DecidableEq

/-- Surrogate order key: order_number + "_" + strftime %Y of the pick
timestamp. -/
def sk_order_id (r : PickRow) : String :=
  r.order_number ++ "_" ++ toString (yearOfDay (r.pick_timestamp / 86400))

/-- The grouping key of the position-key assignment: (sk_order_id, origin). -/
def pickGroupKey (r : PickRow) : String × Int := (sk_order_id r, r.origin)

/-- sort_values of the index-decorated frame by pick_timestamp ascending
(a stable comparison sort). -/
def sortPicksByTimestamp (l : List (Nat × PickRow)) : List (Nat × PickRow) :=
  List.insertionSort (fun a b => a.2.pick_timestamp ≤ b.2.pick_timestamp) l

/-- groupby((sk_order_id, origin)).cumcount(): each entry is decorated with
the number of earlier entries of the same group, threading a per-group
counter through the list. -/
def cumcountFrom (cnt : String × Int → Nat) : List (Nat × PickRow) → List (Nat × PickRow × Nat)
  | [] => []
  | e :: rest =>
      (e.1, e.2, cnt (pickGroupKey e.2)) ::
        cumcountFrom (fun k => if k = pickGroupKey e.2 then cnt k + 1 else cnt k) rest

/-- The cumcount series over the frame sorted by pick_timestamp, carrying
the original row index of each entry. -/
def positionsList (rows : List PickRow) : List (Nat × PickRow × Nat) :=
  cumcountFrom (fun _ => 0) (sortPicksByTimestamp rows.enum)

/-- The sk_position_in_order series: cumcount() + 1, still in ascending
pick_timestamp order, keyed by original row index. -/
def cumcountPlusOne (rows : List PickRow) : List (Nat × PickRow × Nat) :=
  (positionsList rows).map (fun e => (e.1, e.2.1, e.2.2 + 1))

/-- A staged row enriched with the two surrogate keys added by
curate_pick_data. -/
structure CuratedPickRow where
  base : PickRow
  sk_order_id : String
  sk_position_in_order : Nat
deriving DecidableEq

/-- picks_df after the two surrogate-key column assignments.  The series
assignment aligns on the row index, so the frame keeps its original row
order; every index of the frame occurs exactly once in the series, hence
the fallback value of the lookup is never used. -/
def curatedPicks (rows : List PickRow) : List CuratedPickRow :=
  rows.enum.map (fun e =>
    { base := e.2
      sk_order_id := sk_order_id e.2
      sk_position_in_order :=
        (((cumcountPlusOne rows).find? (fun t => t.1 == e.1)).map (fun t => t.2.2)).getD 0 })

/-- The f_pick_errors partition: rows with pick_volume == 0. -/
def f_pick_errors_rows (rows : List PickRow) : List CuratedPickRow :=
  (curatedPicks rows).filter (fun r => decide (r.base.pick_volume = 0))

/-- The f_returns partition before the volume rewrite: rows with
pick_volume < 0. -/
def f_returns_rows (rows : List PickRow) : List CuratedPickRow :=
  (curatedPicks rows).filter (fun r => decide (r.base.pick_volume < 0))

/-- The f_order_picks partition: rows with pick_volume > 0. -/
def f_order_picks_rows (rows : List PickRow) : List CuratedPickRow :=
  (curatedPicks rows).filter (fun r => decide (0 < r.base.pick_volume))

/-- returns_df["pick_volume"] = (-1) * returns_df["pick_volume"]. -/
def negateReturnVolume (r : CuratedPickRow) : CuratedPickRow :=
  { r with base := { r.base with pick_volume := (-1) * r.base.pick_volume } }

/-- A table cell, for stating properties about column names of written
tables. -/
inductive Cell where
  | str : String → Cell
  | int : Int → Cell
  | nat : Nat → Cell
deriving DecidableEq

/-- The columns of a curated pick row as written to parquet, in schema
order, as (column name, value) cells. -/
def curatedCells (r : CuratedPickRow) : List (String × Cell) :=
  [ ("product_id", Cell.str r.base.product_id)
  , ("warehouse_section", Cell.str r.base.warehouse_section)
  , ("origin", Cell.int r.base.origin)
  , ("order_number", Cell.str r.base.order_number)
  , ("pick_volume", Cell.int r.base.pick_volume)
  , ("pick_timestamp", Cell.nat r.base.pick_timestamp)
  , ("pick_date", Cell.nat r.base.pick_date)
  , ("sk_order_id", Cell.str r.sk_order_id)
  , ("sk_position_in_order", Cell.nat r.sk_position_in_order) ]

/-- Applying a column-name mapper to one row, as DataFrame.rename with
axis=1 would. -/
def renameCols (mapper : List (String × String)) (row : List (String × Cell)) :
    List (String × Cell) :=
  row.map (fun c =>
    match mapper.lookup c.1 with
    | some n => (n, c.2)
    | none => c)

/-- The mapper passed to returns_df.rename in curate_pick_data. -/
def returnsMapper : List (String × String) :=
  [ ("pick_volume", "return_volume")
  , ("pick_timestamp", "return_timestamp")
  , ("pick_date", "return_date") ]

/-- The f_returns table as written by curate_pick_data.  The source calls
returns_df.rename({...}) on its own line: pandas applies the mapper along
the default axis (the row index, not the columns) and returns a new frame,
which the source does not assign, so the written table keeps the staged
column names. -/
def f_returns_table (rows : List PickRow) : List (List (String × Cell)) :=
  let negated := (f_returns_rows rows).map negateReturnVolume
  let table := negated.map curatedCells
  let _ := table.map (renameCols returnsMapper)
  table

/-! ## Warehouse-section passthrough (create_d_warehouse_section,
curation.py lines 123-153) -/

/-- One row of the warehouse-section reference table. -/
structure WarehouseSectionRow where
  abbreviation : String
  description : String
  sectionGroup : String
  pickRef : String
deriving DecidableEq

/-- create_d_warehouse_section after the staging read succeeded: the value
is the table written to curation, none when nothing is written.  In the
source the write call is nested inside the emptiness check, so only an
empty staged table reaches the write. -/
def create_d_warehouse_section (stg : List WarehouseSectionRow) :
    Option (List WarehouseSectionRow) :=
  if stg.isEmpty then some stg else none

/-! ## Data-mart inputs -/

/-- One row of the f_order_picks fact table as consumed by data_marts.py:
the curated pick columns plus the product_group column merged in from
d_product_details. -/
structure FactRow where
  product_id : String
  product_group : String
  warehouse_section : String
  origin : Int
  sk_order_id : String
  pick_volume : Int
  pick_timestamp : Nat
  pick_date : Nat
deriving DecidableEq

/-- The week that the date dimension assigns to a date: a LEFT JOIN of a
fact date against d_date, NULL when the date is outside the dimension. -/
def weekOf (d_date : List DDateRow) (d : Nat) : Option String :=
  (d_date.find? (fun r => r.date == d)).map (fun r => r.week)

/-- SQL equality of two nullable week keys: NULL joins with nothing. -/
def weekJoinEq (x y : Option String) : Bool :=
  match x, y with
  | some s, some t => s == t
  | _, _ => false

/-! ## total_pick_volume (data_marts.py lines 34-82) -/

/-- agg_cte of total_pick_volume: sum of pick_volume grouped by pick_date,
one entry per distinct pick_date of the fact table. -/
def aggPickVolumeByDate (f : List FactRow) : List (Nat × Int) :=
  ((f.map (fun r => r.pick_date)).dedup).map (fun d =>
    (d, ((f.filter (fun r => r.pick_date == d)).map (fun r => r.pick_volume)).sum))

/-- One output row of total_pick_volume.  The d_date columns are nullable
because d_date is the non-preserved side of the join. -/
structure TPVRow where
  date : Option Nat
  pick_volume : Int
  week : Option String
  month : Option String
  quarter : Option String
  year_half : Option String
  year : Option Nat
deriving DecidableEq

/-- total_pick_volume: the aggregate CTE is the preserved (left) side of
the LEFT JOIN onto d_date, so the output has one row per distinct active
pick_date and no row for inactive dimension dates.  Because the aggregate
side is preserved, its pick_volume is never NULL and the coalesce to 0 in
the select list is the identity. -/
def total_pick_volume (f : List FactRow) (d_date : List DDateRow) : List TPVRow :=
  (aggPickVolumeByDate f).map (fun a =>
    match d_date.find? (fun dr => dr.date == a.1) with
    | some dr =>
        { date := some dr.date, pick_volume := a.2, week := some dr.week
          month := some dr.month, quarter := some dr.quarter
          year_half := some dr.year_half, year := some dr.year }
    | none =>
        { date := none, pick_volume := a.2, week := none, month := none
          quarter := none, year_half := none, year := none })

/-! ## weekly_zscore_distribution (data_marts.py lines 859-917) -/

/-- A period selector standing for the z_score_group column name, a column
of d_date (the week column by default). -/
def weekCol : DDateRow → String := fun r => r.week

/-- The period that the date dimension assigns to a date under the chosen
z_score_group column, NULL outside the dimension. -/
def periodOf (d_date : List DDateRow) (zcol : DDateRow → String) (d : Nat) : Option String :=
  (d_date.find? (fun r => r.date == d)).map zcol

/-- The orders CTE of weekly_zscore_distribution: pick volume summed per
(sk_order_id, period) group, one entry per distinct group key. -/
def zOrders (f : List FactRow) (d_date : List DDateRow) (zcol : DDateRow → String) :
    List (String × Option String × Int) :=
  ((f.map (fun r => (r.sk_order_id, periodOf d_date zcol r.pick_date))).dedup).map (fun k =>
    (k.1, k.2,
      ((f.filter (fun r =>
        r.sk_order_id == k.1 && periodOf d_date zcol r.pick_date == k.2)).map
          (fun r => r.pick_volume)).sum))

/-- The pick volumes of the orders of one period. -/
def periodVolumes (orders : List (String × Option String × Int)) (p : Option String) :
    List Int :=
  (orders.filter (fun o => o.2.1 == p)).map (fun o => o.2.2)

/-- avg of a group of values; the coalesce to 0 only applies to the
aggregate of an empty group (SQL would return NULL there). -/
def meanQ (l : List Int) : ℚ :=
  if l.length = 0 then 0 else (l.sum : ℚ) / (l.length : ℚ)

/-- Sample variance, the square of the DuckDB stddev aggregate. -/
def varSamp (l : List Int) : ℚ :=
  ((l.map (fun x : Int => ((x : ℚ) - meanQ l) ^ 2)).sum) / ((l.length : ℚ) - 1)

/-- The square of coalesce(stddev(pick_volume), 1).  DuckDB stddev is the
sample standard deviation sqrt(varSamp), which is NULL exactly when the
group has fewer than 2 rows; the coalesce replaces NULL by 1 = sqrt 1.
Tracking the square keeps the embedding in ℚ while determining the stddev
exactly: sqrt s = 0 iff s = 0, and the default 1 is the value 1. -/
def stdSq (l : List Int) : ℚ :=
  if l.length < 2 then 1 else varSamp l

/-- order_stats_for_agg_period: one statistics row per distinct period key
of the orders CTE, holding coalesce(avg, 0) and the square of
coalesce(stddev, 1).  A NULL period forms its own group, exactly as in SQL
GROUP BY. -/
def orderStats (f : List FactRow) (d_date : List DDateRow) (zcol : DDateRow → String) :
    List (Option String × ℚ × ℚ) :=
  (((zOrders f d_date zcol).map (fun o => o.2.1)).dedup).map (fun p =>
    (p, meanQ (periodVolumes (zOrders f d_date zcol) p),
      stdSq (periodVolumes (zOrders f d_date zcol) p)))

/-- One output row of weekly_zscore_distribution.  The statistics columns
are nullable because they come from the non-preserved side of the
z_score_agg LEFT JOIN.  std_sq is the square of the std_pick_volume
column; the zscore column of the source is
(pick_volume - mean_pick_volume) / sqrt std_sq, NULL when the statistics
are NULL. -/
structure ZRow where
  sk_order_id : String
  period : Option String
  pick_volume : Int
  mean_pick_volume : Option ℚ
  std_sq : Option ℚ
deriving DecidableEq

/-- weekly_zscore_distribution: z_score_agg LEFT JOINs the orders CTE with
the per-period statistics on equality of the period keys.  SQL equality
never matches NULL keys, so an order whose pick_date lies outside d_date
(NULL period) gets NULL mean, NULL stddev and a NULL zscore. -/
def weekly_zscore_distribution (f : List FactRow) (d_date : List DDateRow)
    (zcol : DDateRow → String) : List ZRow :=
  (zOrders f d_date zcol).map (fun o =>
    { sk_order_id := o.1
      period := o.2.1
      pick_volume := o.2.2
      mean_pick_volume :=
        (((orderStats f d_date zcol).find? (fun st => weekJoinEq o.2.1 st.1)).map
          (fun st => st.2.1))
      std_sq :=
        (((orderStats f d_date zcol).find? (fun st => weekJoinEq o.2.1 st.1)).map
          (fun st => st.2.2)) })

/-- False exactly when the zscore division of the row has the zero divisor
sqrt 0: the source then produces a divide-by-zero (NaN) instead of a
defined value.  A row with NULL statistics performs no division (its
zscore is NULL, not NaN). -/
def zscoreFinite (r : ZRow) : Bool := r.std_sq != some 0

/-! ## order_count_by_type (data_marts.py lines 541-613) -/

/-- One per-origin CTE of order_count_by_type: distinct sk_order_id count
per week for facts of the given origin (the source compares origin against
a string literal, which DuckDB casts back to the integer column type). -/
def orderCountCte (f : List FactRow) (d_date : List DDateRow) (o : Int) :
    List (Option String × Nat) :=
  (((f.filter (fun r => r.origin == o)).map (fun r => weekOf d_date r.pick_date)).dedup).map
    (fun w =>
      (w, (((f.filter (fun r => r.origin == o && weekOf d_date r.pick_date == w)).map
        (fun r => r.sk_order_id)).dedup).length))

/-- FULL OUTER JOIN of the two weekly CTEs on the week key: matched pairs,
then the unmatched rows of the right CTE. -/
def fullOuterWeeks (l r : List (Option String × Nat)) :
    List (Option (Option String × Nat) × Option (Option String × Nat)) :=
  (l.map (fun a => ((some a : Option (Option String × Nat)),
      r.find? (fun b => weekJoinEq a.1 b.1))))
    ++ ((r.filter (fun b => (l.find? (fun a => weekJoinEq a.1 b.1)).isNone)).map
      (fun b => ((none : Option (Option String × Nat)), some b)))

/-- DuckDB round(x, k): round half away from zero at the k-th decimal.  All
values rounded in this mart are nonnegative, where half away from zero
agrees with the half-up rounding of round. -/
def roundTo (k : Nat) (q : ℚ) : ℚ := ((round (q * 10 ^ k) : ℤ) : ℚ) / 10 ^ k

/-- One output row of order_count_by_type. -/
structure OrderCountRow where
  week : Option String
  order_volume_48 : Nat
  order_volume_46 : Nat
  total_order_volume : Option Nat
  order_percentage_48 : Option ℚ
  order_percentage_46 : Option ℚ
  ratio_46_48 : ℚ
  ratio_48_46 : ℚ
deriving DecidableEq

/-- order_count_by_type: the full outer join of the per-origin weekly
distinct order counts, with coalesced volumes, NULL-propagating totals and
percentages (the un-coalesced cte columns are NULL on unmatched rows), and
the ratio columns guarded by a CASE on the coalesced volume of the
denominator side.  Each cte count is the size of a nonempty distinct set,
so the percentage denominator is positive whenever both sides match. -/
def order_count_by_type (f : List FactRow) (d_date : List DDateRow) :
    List OrderCountRow :=
  (fullOuterWeeks (orderCountCte f d_date 48) (orderCountCte f d_date 46)).map (fun p =>
    let v48 := (p.1.map (fun a => a.2)).getD 0
    let v46 := (p.2.map (fun b => b.2)).getD 0
    { week :=
        match p.1 with
        | some a => a.1
        | none =>
          match p.2 with
          | some b => b.1
          | none => none
      order_volume_48 := v48
      order_volume_46 := v46
      total_order_volume :=
        match p.1, p.2 with
        | some a, some b => some (a.2 + b.2)
        | _, _ => none
      order_percentage_48 :=
        match p.1, p.2 with
        | some a, some b => some (roundTo 4 ((a.2 : ℚ) / ((a.2 : ℚ) + (b.2 : ℚ))) * 100)
        | _, _ => none
      order_percentage_46 :=
        match p.1, p.2 with
        | some a, some b => some (roundTo 4 ((b.2 : ℚ) / ((a.2 : ℚ) + (b.2 : ℚ))) * 100)
        | _, _ => none
      ratio_46_48 := if 0 < v48 then roundTo 2 ((v46 : ℚ) / (v48 : ℚ)) else 0
      ratio_48_46 := if 0 < v46 then roundTo 2 ((v48 : ℚ) / (v46 : ℚ)) else 0 })

/-! ## binned_order_volume (data_marts.py lines 788-856) -/

/-- The six fixed bin labels of binned_order_volume. -/
def binLabels : List String :=
  [("mini"), ("small"), ("medium"), ("large"), ("extra_large"), ("extreme")]

/-- The bin edges of binned_order_volume. -/
def binEdges : List Int := [0, 50, 150, 350, 600, 900, 200000]

/-- pd.cut with right-closed intervals: the label of the first interval
(lo, hi] containing v, NULL (NaN in pandas) when v lies outside every
interval. -/
def binOf (v : Int) : Option String :=
  (((binEdges.zip binEdges.tail).zip binLabels)).findSome? (fun p =>
    if p.1.1 < v ∧ v ≤ p.1.2 then some p.2 else none)

/-- Step 1 of binned_order_volume: pick volume summed per
(pick_date, sk_order_id), one entry per distinct pair. -/
def rawOrderVolumes (f : List FactRow) : List ((Nat × String) × Int) :=
  ((f.map (fun r => (r.pick_date, r.sk_order_id))).dedup).map (fun k =>
    (k, ((f.filter (fun r => r.pick_date == k.1 && r.sk_order_id == k.2)).map
      (fun r => r.pick_volume)).sum))

/-- agg_cte of binned_order_volume: order count per (pick_date, bin), one
entry per distinct (pick_date, bin) pair of the binned order table. -/
def binnedAgg (f : List FactRow) : List ((Nat × Option String) × Nat) :=
  (((rawOrderVolumes f).map (fun t => (t.1.1, binOf t.2))).dedup).map (fun k =>
    (k, ((rawOrderVolumes f).filter (fun t =>
      t.1.1 == k.1 && binOf t.2 == k.2)).length))

/-- One output row of binned_order_volume. -/
structure BOVRow where
  date : Nat
  bins : String
  order_volume : Nat
  week : String
  month : String
  quarter : String
  year_half : String
deriving DecidableEq

/-- binned_order_volume: d_date CROSS JOIN the six labels, LEFT JOIN the
per-(date, bin) order counts (whose group keys are distinct, so the lookup
by find? is the join), order counts coalesced to 0. -/
def binned_order_volume (f : List FactRow) (d_date : List DDateRow) : List BOVRow :=
  d_date.flatMap (fun dr =>
    binLabels.map (fun lbl =>
      { date := dr.date
        bins := lbl
        order_volume :=
          (((binnedAgg f).find? (fun a => a.1.1 == dr.date && a.1.2 == some lbl)).map
            (fun a => a.2)).getD 0
        week := dr.week
        month := dr.month
        quarter := dr.quarter
        year_half := dr.year_half }))

/-! ## top_n_products_weekly_w_drill_down (data_marts.py lines 434-488) -/

/-- One output row of top_n_products_weekly_w_drill_down; dd is the value
of the drill-down column. -/
structure TopNRow where
  week : Option String
  product_id : String
  dd : Cell
  total_picks : Nat
deriving DecidableEq

/-- total_picks_cte of top_n_products_weekly_w_drill_down: pick count per
(week, product_id, drill-down value), the drill-down column given as a
typed selector in place of the interpolated column name. -/
def topTotalPicks (f : List FactRow) (d_date : List DDateRow) (drill : FactRow → Cell) :
    List TopNRow :=
  ((f.map (fun r => (weekOf d_date r.pick_date, r.product_id, drill r))).dedup).map
    (fun k =>
      { week := k.1
        product_id := k.2.1
        dd := k.2.2
        total_picks := (f.filter (fun r =>
          weekOf d_date r.pick_date == k.1 && decide (r.product_id = k.2.1)
            && decide (drill r = k.2.2))).length })

/-- top_n_products_weekly_w_drill_down: the function reassigns n to 10
before using it, then keeps the rows of row_number at most n per
(week, drill-down) partition, numbering the partition in descending
total_picks order. -/
def top_n_products_weekly_w_drill_down (f : List FactRow) (d_date : List DDateRow)
    (drill : FactRow → Cell) (n : Nat) : List TopNRow :=
  let n := 10
  let cte := topTotalPicks f d_date drill
  let parts := (cte.map (fun t => (t.week, t.dd))).dedup
  parts.flatMap (fun p =>
    (List.insertionSort (fun a b => b.total_picks ≤ a.total_picks)
      (cte.filter (fun t => t.week == p.1 && decide (t.dd = p.2)))).take n)

/-! ## Helper lemmas -/

/-- Shifting a range of consecutive naturals by one. -/
theorem range'_map_succ (s n : Nat) :
    (List.range' s n).map (fun x => x + 1) = List.range' (s + 1) n := by
  induction n generalizing s with
  | zero => rfl
  | succ m ih => simp [List.range'_succ, ih]

/-- Counting on the decorated frame agrees with counting on the rows. -/
theorem countP_enumFrom (p : PickRow → Bool) (n : Nat) (l : List PickRow) :
    (List.enumFrom n l).countP (fun e => p e.2) = l.countP p := by
  induction l generalizing n with
  | nil => rfl
  | cons a t ih => simp [List.enumFrom, List.countP_cons, ih]

/-- SQL join equality with a non-NULL left key determines the right key. -/
theorem weekJoinEq_some (w : String) (y : Option String)
    (h : weekJoinEq (some w) y = true) : y = some w := by
  cases y with
  | none => simp [weekJoinEq] at h
  | some t =>
    simp only [weekJoinEq, beq_iff_eq] at h
    rw [h]

/-- The sum of a constant list. -/
theorem sum_of_constant {c : Int} : ∀ {l : List Int}, (∀ x ∈ l, x = c) → l.sum = c * l.length
  | [], _ => by simp
  | a :: t, h => by
    have ha : a = c := h a (List.mem_cons_self a t)
    have ht := sum_of_constant (fun x hx => h x (List.mem_cons_of_mem a hx))
    simp [ha, ht]
    ring

/-! ## C4: date dimension row count, purity, degenerate range -/

/-- C4: for start_date ≤ end_date, create_d_date produces exactly
(end - start) + 1 rows, one per day of the inclusive range; for
start_date > end_date it produces the empty table without raising; and
every derived column of a row is a pure function of that row's date, so
regeneration from the same range is deterministic. -/
theorem create_d_date_spec (s e : Nat) :
    (s ≤ e → (create_d_date s e).length = e - s + 1)
    ∧ (e < s → create_d_date s e = [])
    ∧ (∀ r ∈ create_d_date s e, r = mkDDateRow r.date) := by
  refine ⟨fun h => ?_, fun h => ?_, fun r hr => ?_⟩
  · simp only [create_d_date, List.length_map, List.length_range]
    omega
  · have hz : e + 1 - s = 0 := by omega
    simp [create_d_date, hz]
  · rcases List.mem_map.1 hr with ⟨i, hi, rfl⟩
    rfl

/-- Witness for create_d_date_spec at a three-day range and a reversed
range. -/
theorem create_d_date_spec_witness :
    (create_d_date 737000 737002).length = 737002 - 737000 + 1
    ∧ create_d_date 5 3 = []
    ∧ mkDDateRow 737000 = mkDDateRow (mkDDateRow 737000).date := by
  refine ⟨(create_d_date_spec 737000 737002).1 (by decide),
    (create_d_date_spec 5 3).2.1 (by decide),
    (create_d_date_spec 737000 737002).2.2 (mkDDateRow 737000) ?_⟩
  exact List.mem_map.2 ⟨0, List.mem_range.2 (by decide), rfl⟩

/-! ## C1: the three curated partitions are an exact disjoint partition -/

/-- The sign trichotomy partitions any list of curated rows. -/
theorem filter_sign_partition_perm (l : List CuratedPickRow) :
    (l.filter (fun r => decide (r.base.pick_volume = 0))
      ++ (l.filter (fun r => decide (r.base.pick_volume < 0))
        ++ l.filter (fun r => decide (0 < r.base.pick_volume)))).Perm l := by
  induction l with
  | nil => simp
  | cons a t ih =>
    rcases lt_trichotomy a.base.pick_volume 0 with h | h | h
    · have e0 : decide (a.base.pick_volume = 0) = false := decide_eq_false (by omega)
      have e1 : decide (a.base.pick_volume < 0) = true := decide_eq_true h
      have e2 : decide (0 < a.base.pick_volume) = false := decide_eq_false (by omega)
      simp only [List.filter_cons, e0, e1, e2, Bool.false_eq_true, if_false, if_true,
        List.cons_append]
      exact List.perm_middle.trans (ih.cons a)
    · have e0 : decide (a.base.pick_volume = 0) = true := decide_eq_true h
      have e1 : decide (a.base.pick_volume < 0) = false := decide_eq_false (by omega)
      have e2 : decide (0 < a.base.pick_volume) = false := decide_eq_false (by omega)
      simp only [List.filter_cons, e0, e1, e2, Bool.false_eq_true, if_false, if_true,
        List.cons_append]
      exact ih.cons a
    · have e0 : decide (a.base.pick_volume = 0) = false := decide_eq_false (by omega)
      have e1 : decide (a.base.pick_volume < 0) = false := decide_eq_false (by omega)
      have e2 : decide (0 < a.base.pick_volume) = true := decide_eq_true h
      simp only [List.filter_cons, e0, e1, e2, Bool.false_eq_true, if_false, if_true]
      rw [← List.append_assoc]
      refine List.perm_middle.trans ?_
      rw [List.append_assoc]
      exact ih.cons a

/-- C1: curate_pick_data partitions the staged rows by the sign of
pick_volume: the three written partitions together are a permutation of
the curated input frame (no row created, dropped or duplicated), and the
partitions are pairwise disjoint. -/
theorem curate_pick_data_partition (rows : List PickRow) :
    (f_pick_errors_rows rows ++ (f_returns_rows rows ++ f_order_picks_rows rows)).Perm
        (curatedPicks rows)
    ∧ (∀ r, r ∈ f_pick_errors_rows rows → r ∉ f_returns_rows rows)
    ∧ (∀ r, r ∈ f_pick_errors_rows rows → r ∉ f_order_picks_rows rows)
    ∧ (∀ r, r ∈ f_returns_rows rows → r ∉ f_order_picks_rows rows) := by
  refine ⟨filter_sign_partition_perm (curatedPicks rows),
    fun r hr hq => ?_, fun r hr hq => ?_, fun r hr hq => ?_⟩
  · rw [f_pick_errors_rows, List.mem_filter] at hr
    rw [f_returns_rows, List.mem_filter] at hq
    have h1 := of_decide_eq_true hr.2
    have h2 := of_decide_eq_true hq.2
    omega
  · rw [f_pick_errors_rows, List.mem_filter] at hr
    rw [f_order_picks_rows, List.mem_filter] at hq
    have h1 := of_decide_eq_true hr.2
    have h2 := of_decide_eq_true hq.2
    omega
  · rw [f_returns_rows, List.mem_filter] at hr
    rw [f_order_picks_rows, List.mem_filter] at hq
    have h1 := of_decide_eq_true hr.2
    have h2 := of_decide_eq_true hq.2
    omega

/-- A staged row with zero pick volume, for concrete evaluation. -/
def pickZero : PickRow :=
  { product_id := ("p1"), warehouse_section := ("A"), origin := 46,
    order_number := ("O1"), pick_volume := 0, pick_timestamp := 100, pick_date := 0 }

/-- A staged row with negative pick volume, for concrete evaluation. -/
def pickNeg : PickRow :=
  { product_id := ("p2"), warehouse_section := ("A"), origin := 46,
    order_number := ("O1"), pick_volume := -5, pick_timestamp := 200, pick_date := 0 }

/-- A staged row with positive pick volume, for concrete evaluation. -/
def pickPos : PickRow :=
  { product_id := ("p3"), warehouse_section := ("B"), origin := 48,
    order_number := ("O2"), pick_volume := 10, pick_timestamp := 300, pick_date := 0 }

/-- A curated-row fallback value for head lookups in concrete statements. -/
def curatedFallback : CuratedPickRow :=
  { base := pickZero, sk_order_id := (""), sk_position_in_order := 0 }

/-- Witness for curate_pick_data_partition on a three-row staged table. -/
theorem curate_pick_data_partition_witness :
    (f_pick_errors_rows [pickZero, pickNeg, pickPos]
      ++ (f_returns_rows [pickZero, pickNeg, pickPos]
        ++ f_order_picks_rows [pickZero, pickNeg, pickPos])).Perm
        (curatedPicks [pickZero, pickNeg, pickPos])
    ∧ ((curatedPicks [pickZero, pickNeg, pickPos]).head?.getD curatedFallback)
        ∉ f_returns_rows [pickZero, pickNeg, pickPos] := by
  exact ⟨(curate_pick_data_partition [pickZero, pickNeg, pickPos]).1,
    (curate_pick_data_partition [pickZero, pickNeg, pickPos]).2.1 _ (by decide)⟩

/-! ## C3: dense 1..k surrogate position keys per (order key, origin) group -/

/-- The counts that cumcountFrom decorates the entries of one group with
continue the running counter of that group: restricted to group g they are
the consecutive naturals starting at the incoming counter value. -/
theorem cumcountFrom_filter_map (g : String × Int) (l : List (Nat × PickRow))
    (cnt : String × Int → Nat) :
    ((cumcountFrom cnt l).filter (fun e => decide (pickGroupKey e.2.1 = g))).map
        (fun e => e.2.2)
      = List.range' (cnt g) (l.countP (fun e => decide (pickGroupKey e.2 = g))) := by
  induction l generalizing cnt with
  | nil => rfl
  | cons e t ih =>
    by_cases h : pickGroupKey e.2 = g
    · have hd : decide (pickGroupKey e.2 = g) = true := decide_eq_true h
      have hcnt : (fun k => if k = pickGroupKey e.2 then cnt k + 1 else cnt k) g
          = cnt g + 1 := by
        show (if g = pickGroupKey e.2 then cnt g + 1 else cnt g) = cnt g + 1
        rw [if_pos h.symm]
      simp only [cumcountFrom, List.filter_cons, List.countP_cons, hd, if_true,
        List.map_cons, ih, hcnt]
      rw [List.range'_succ]
      simp [h]
    · have hd : decide (pickGroupKey e.2 = g) = false := decide_eq_false h
      have hcnt : (fun k => if k = pickGroupKey e.2 then cnt k + 1 else cnt k) g
          = cnt g := by
        show (if g = pickGroupKey e.2 then cnt g + 1 else cnt g) = cnt g
        rw [if_neg (Ne.symm h)]
      simp only [cumcountFrom, List.filter_cons, List.countP_cons, hd,
        Bool.false_eq_true, if_false, ih, hcnt]
      simp

/-- C3: within every (sk_order_id, origin) group, the surrogate position
keys of the cumcount-plus-one series, read in the ascending pick_timestamp
order in which they are assigned, are exactly 1, 2, ..., k for k the number
of staged rows of the group: dense, duplicate-free and 1-based. -/
theorem sk_position_in_order_dense (rows : List PickRow) (g : String × Int) :
    ((cumcountPlusOne rows).filter (fun e => decide (pickGroupKey e.2.1 = g))).map
        (fun e => e.2.2)
      = List.range' 1 (rows.countP (fun r => decide (pickGroupKey r = g))) := by
  have hsorted : (sortPicksByTimestamp rows.enum).countP
      (fun e => decide (pickGroupKey e.2 = g))
      = rows.countP (fun r => decide (pickGroupKey r = g)) := by
    unfold sortPicksByTimestamp
    rw [(List.perm_insertionSort _ rows.enum).countP_eq]
    simpa [List.enum] using countP_enumFrom (fun r => decide (pickGroupKey r = g)) 0 rows
  have hbase := cumcountFrom_filter_map g (sortPicksByTimestamp rows.enum) (fun _ => 0)
  rw [hsorted] at hbase
  have hshift : ((cumcountPlusOne rows).filter
        (fun e => decide (pickGroupKey e.2.1 = g))).map (fun e => e.2.2)
      = (((positionsList rows).filter
        (fun e => decide (pickGroupKey e.2.1 = g))).map (fun e => e.2.2)).map
          (fun x => x + 1) := by
    rw [cumcountPlusOne, List.filter_map, List.map_map, List.map_map]
    rfl
  rw [hshift, positionsList, hbase, range'_map_succ]

/-! ## C2: the returns-partition column rename does not take effect -/

/-- C2: evaluating curate_pick_data on a staged table with one negative
pick shows the written f_returns table negates the volume (to 5 > 0) but
keeps the staged column names: no column is named return_volume,
return_timestamp or return_date, and the negated volume is still published
under pick_volume, because the rename result is discarded. -/
theorem f_returns_rename_no_op :
    ((f_returns_table [pickNeg]).all (fun row => row.all
        (fun c => c.1 != ("return_volume") && c.1 != ("return_timestamp")
          && c.1 != ("return_date")))) = true
    ∧ ((f_returns_table [pickNeg]).head?.bind (fun row => row.lookup ("pick_volume")))
        = some (Cell.int 5)
    ∧ ((f_returns_table [pickNeg]).head?.bind (fun row => row.lookup ("pick_timestamp")))
        = some (Cell.nat 200)
    ∧ ((f_returns_table [pickNeg]).head?.bind (fun row => row.lookup ("pick_date")))
        = some (Cell.nat 0) := by
  refine ⟨by decide, by decide, by decide, by decide⟩

/-! ## C5: total_pick_volume is not dense over the date dimension -/

/-- A fact-table row with a pick on day 737000, for concrete evaluation. -/
def factPickA : FactRow :=
  { product_id := ("p1"), product_group := ("G1"), warehouse_section := ("A"),
    origin := 46, sk_order_id := ("O1_2018"), pick_volume := 10,
    pick_timestamp := 100, pick_date := 737000 }

/-- C5: with a two-day date dimension and activity only on the first day,
total_pick_volume returns a single row; the inactive dimension date 737001
appears in no output row, because the aggregate CTE, not d_date, is the
preserved side of the LEFT JOIN. -/
theorem total_pick_volume_not_date_dense :
    (total_pick_volume [factPickA] (create_d_date 737000 737001)).length = 1
    ∧ ((total_pick_volume [factPickA] (create_d_date 737000 737001)).all
        (fun r => r.date != some 737001)) = true := by
  refine ⟨by decide, by decide⟩

/-! ## C6: the non-empty warehouse-section table is never republished -/

/-- A warehouse-section reference row, for concrete evaluation. -/
def sectionA : WarehouseSectionRow :=
  { abbreviation := ("A"), description := ("Aisle A"), sectionGroup := ("G1"),
    pickRef := ("PR1") }

/-- C6: a successfully read non-empty warehouse-section table is not
republished (nothing is written), while an empty table is written: the
write call sits inside the emptiness branch. -/
theorem create_d_warehouse_section_skips_nonempty :
    create_d_warehouse_section [sectionA] = none
    ∧ create_d_warehouse_section ([] : List WarehouseSectionRow) = some [] := by
  exact ⟨rfl, rfl⟩

/-! ## C7: z-score degenerate defaults -/

/-- A fact row of order O1 with volume 5 on day 737000, for concrete
evaluation. -/
def factOrder1 : FactRow :=
  { product_id := ("p1"), product_group := ("G1"), warehouse_section := ("A"),
    origin := 46, sk_order_id := ("O1_2018"), pick_volume := 5,
    pick_timestamp := 100, pick_date := 737000 }

/-- A fact row of a second order O2 with the same volume 5 on the same day,
for concrete evaluation. -/
def factOrder2 : FactRow :=
  { product_id := ("p2"), product_group := ("G1"), warehouse_section := ("A"),
    origin := 46, sk_order_id := ("O2_2018"), pick_volume := 5,
    pick_timestamp := 200, pick_date := 737000 }

/-- C7 counterexample: a week whose two orders both have pick volume 5 has
no variance, yet the stddev used for the z-score is 0, not the claimed
default 1, and every z-score of the week divides by zero. -/
theorem weekly_zscore_zero_variance_counterexample :
    (weekly_zscore_distribution [factOrder1, factOrder2]
        (create_d_date 737000 737000) weekCol).length = 2
    ∧ ((weekly_zscore_distribution [factOrder1, factOrder2]
        (create_d_date 737000 737000) weekCol).map ZRow.std_sq) = [some 0, some 0]
    ∧ ((weekly_zscore_distribution [factOrder1, factOrder2]
        (create_d_date 737000 737000) weekCol).map zscoreFinite) = [false, false] := by
  have hz : zOrders [factOrder1, factOrder2] (create_d_date 737000 737000) weekCol
      = [(("O1_2018"), some (weekStr 737000), (5 : Int)),
         (("O2_2018"), some (weekStr 737000), (5 : Int))] := by decide
  have hkeys : ((zOrders [factOrder1, factOrder2] (create_d_date 737000 737000)
      weekCol).map (fun o => o.2.1)).dedup = [some (weekStr 737000)] := by decide
  have hvols : periodVolumes
      [(("O1_2018"), some (weekStr 737000), (5 : Int)),
       (("O2_2018"), some (weekStr 737000), (5 : Int))] (some (weekStr 737000))
      = [5, 5] := by decide
  have hstd : stdSq [(5 : Int), 5] = 0 := by norm_num [stdSq, varSamp, meanQ]
  have hstats : orderStats [factOrder1, factOrder2] (create_d_date 737000 737000) weekCol
      = [(some (weekStr 737000), meanQ [(5 : Int), 5], (0 : ℚ))] := by
    simp only [orderStats, hkeys, List.map_cons, List.map_nil]
    rw [hz, hvols, hstd]
  have hpred : weekJoinEq (some (weekStr 737000)) (some (weekStr 737000)) = true := by
    simp [weekJoinEq]
  have hfind : (orderStats [factOrder1, factOrder2] (create_d_date 737000 737000)
      weekCol).find? (fun st => weekJoinEq (some (weekStr 737000)) st.1)
      = some (some (weekStr 737000), meanQ [(5 : Int), 5], (0 : ℚ)) := by
    rw [hstats]
    exact List.find?_cons_of_pos _ hpred
  refine ⟨?_, ?_, ?_⟩
  · simp [weekly_zscore_distribution, hz]
  · simp only [weekly_zscore_distribution, hz, List.map_cons, List.map_nil]
    rw [hfind]
    rfl
  · simp only [weekly_zscore_distribution, hz, List.map_cons, List.map_nil, zscoreFinite]
    rw [hfind]
    decide

/-- C7 amended: the stddev default 1 applies exactly to the NULL aggregate,
i.e. to a period with a single order; a period with at least two orders of
equal pick volume keeps stddev 0, so its z-scores divide by zero.  Every
output row whose period is non-NULL carries the statistics of its own
period; a row with a NULL period (pick_date outside d_date) misses the
statistics join entirely and carries NULL mean, NULL stddev and a NULL
z-score. -/
theorem weekly_zscore_defaults_amended (f : List FactRow) (d_date : List DDateRow)
    (zcol : DDateRow → String) (p : Option String) :
    ((periodVolumes (zOrders f d_date zcol) p).length = 1 →
      stdSq (periodVolumes (zOrders f d_date zcol) p) = 1)
    ∧ (2 ≤ (periodVolumes (zOrders f d_date zcol) p).length →
        (∀ x ∈ periodVolumes (zOrders f d_date zcol) p,
          ∀ y ∈ periodVolumes (zOrders f d_date zcol) p, x = y) →
        stdSq (periodVolumes (zOrders f d_date zcol) p) = 0)
    ∧ (∀ r ∈ weekly_zscore_distribution f d_date zcol,
        (∀ w, r.period = some w →
          r.std_sq = some (stdSq (periodVolumes (zOrders f d_date zcol) r.period))
            ∧ r.mean_pick_volume
              = some (meanQ (periodVolumes (zOrders f d_date zcol) r.period)))
        ∧ (r.period = none → r.std_sq = none ∧ r.mean_pick_volume = none)) := by
  refine ⟨fun h1 => ?_, fun h2 hall => ?_, fun r hr => ?_⟩
  · rw [stdSq, if_pos (by omega)]
  · set vols := periodVolumes (zOrders f d_date zcol) p with hvols
    rcases vols with _ | ⟨c, rest⟩
    · simp at h2
    · have hc : ∀ x ∈ c :: rest, x = c := fun x hx =>
        hall x hx c (List.mem_cons_self c rest)
      have hsum : (c :: rest).sum = c * (c :: rest).length := sum_of_constant hc
      have hlen : ((c :: rest).length : ℚ) ≠ 0 := by
        have : 0 < (c :: rest).length := by simp
        exact_mod_cast Nat.pos_iff_ne_zero.mp this
      have hmean : meanQ (c :: rest) = (c : ℚ) := by
        rw [meanQ, if_neg (by simp)]
        rw [hsum]
        push_cast
        field_simp
      have hvar : varSamp (c :: rest) = 0 := by
        rw [varSamp]
        have hterms : ((c :: rest).map (fun x : Int => ((x : ℚ) - meanQ (c :: rest)) ^ 2)).sum
            = 0 := by
          apply List.sum_eq_zero
          intro q hq
          rcases List.mem_map.1 hq with ⟨x, hx, hfx⟩
          rw [← hfx, hmean, hc x hx]
          ring
        rw [hterms, zero_div]
      rw [stdSq, if_neg (by omega), hvar]
  · rcases List.mem_map.1 hr with ⟨o, ho, rfl⟩
    constructor
    · intro w hw
      have hw2 : o.2.1 = some w := hw
      have hGmem : ((o.2.1, meanQ (periodVolumes (zOrders f d_date zcol) o.2.1),
          stdSq (periodVolumes (zOrders f d_date zcol) o.2.1)) :
            Option String × ℚ × ℚ) ∈ orderStats f d_date zcol :=
        List.mem_map.2 ⟨o.2.1, List.mem_dedup.2 (List.mem_map_of_mem _ ho), rfl⟩
      have hpredG : weekJoinEq o.2.1 o.2.1 = true := by
        rw [hw2]
        simp [weekJoinEq]
      have hsome : ((orderStats f d_date zcol).find?
          (fun st => weekJoinEq o.2.1 st.1)).isSome := by
        rw [List.find?_isSome]
        exact ⟨_, hGmem, hpredG⟩
      rcases Option.isSome_iff_exists.1 hsome with ⟨st, hst⟩
      have hstpred : weekJoinEq o.2.1 st.1 = true := by
        have h3 := List.find?_some hst
        exact h3
      rcases List.mem_map.1 (List.mem_of_find?_eq_some hst) with ⟨p2, hp2, hstG⟩
      have hst1 : st.1 = p2 := by rw [← hstG]
      rw [hst1, hw2] at hstpred
      have hp2w : p2 = some w := weekJoinEq_some _ _ hstpred
      constructor
      · show (((orderStats f d_date zcol).find? (fun st => weekJoinEq o.2.1 st.1)).map
            (fun st => st.2.2))
          = some (stdSq (periodVolumes (zOrders f d_date zcol) o.2.1))
        rw [hst, ← hstG, hp2w, hw2]
        rfl
      · show (((orderStats f d_date zcol).find? (fun st => weekJoinEq o.2.1 st.1)).map
            (fun st => st.2.1))
          = some (meanQ (periodVolumes (zOrders f d_date zcol) o.2.1))
        rw [hst, ← hstG, hp2w, hw2]
        rfl
    · intro hnone
      have hnone2 : o.2.1 = none := hnone
      have hfind : (orderStats f d_date zcol).find?
          (fun st => weekJoinEq o.2.1 st.1) = none := by
        rw [List.find?_eq_none]
        intro st hstmem
        rw [hnone2]
        rcases st with ⟨p2, ms⟩
        cases p2 <;> simp [weekJoinEq]
      constructor
      · show (((orderStats f d_date zcol).find? (fun st => weekJoinEq o.2.1 st.1)).map
            (fun st => st.2.2)) = none
        rw [hfind]
        rfl
      · show (((orderStats f d_date zcol).find? (fun st => weekJoinEq o.2.1 st.1)).map
            (fun st => st.2.1)) = none
        rw [hfind]
        rfl

/-- Witness for weekly_zscore_defaults_amended: the single-order week of
factOrder1 alone gets the default stddev 1, and the equal-volume two-order
week of factOrder1 and factOrder2 gets stddev 0. -/
theorem weekly_zscore_defaults_amended_witness :
    stdSq (periodVolumes (zOrders [factOrder1] (create_d_date 737000 737000) weekCol)
        (some (weekStr 737000))) = 1
    ∧ stdSq (periodVolumes
        (zOrders [factOrder1, factOrder2] (create_d_date 737000 737000) weekCol)
        (some (weekStr 737000))) = 0 := by
  constructor
  · exact (weekly_zscore_defaults_amended [factOrder1] (create_d_date 737000 737000)
      weekCol (some (weekStr 737000))).1 (by decide)
  · exact (weekly_zscore_defaults_amended [factOrder1, factOrder2]
      (create_d_date 737000 737000) weekCol (some (weekStr 737000))).2.1
      (by decide) (by decide)

/-! ## C8: ratio columns are 0 when the opposite volume is 0 -/

/-- C8: in every order_count_by_type output row, a zero coalesced
order_volume_48 forces ratio_46_48 = 0 and a zero coalesced
order_volume_46 forces ratio_48_46 = 0: the CASE guard replaces the
division by the defined default instead of dividing by zero. -/
theorem order_count_by_type_ratio_guard (f : List FactRow) (d_date : List DDateRow) :
    ∀ row ∈ order_count_by_type f d_date,
      (row.order_volume_48 = 0 → row.ratio_46_48 = 0)
      ∧ (row.order_volume_46 = 0 → row.ratio_48_46 = 0) := by
  intro row hrow
  rcases List.mem_map.1 hrow with ⟨p, hp, hrfl⟩
  constructor
  · intro h48
    rw [← hrfl] at h48 ⊢
    simp only at h48 ⊢
    rw [if_neg (by omega)]
  · intro h46
    rw [← hrfl] at h46 ⊢
    simp only at h46 ⊢
    rw [if_neg (by omega)]

/-- A fact row whose order has origin 46, for concrete evaluation. -/
def factOrigin46 : FactRow :=
  { product_id := ("p1"), product_group := ("G1"), warehouse_section := ("A"),
    origin := 46, sk_order_id := ("O1_2018"), pick_volume := 7,
    pick_timestamp := 100, pick_date := 737000 }

/-- A fallback order_count_by_type row for head lookups in concrete
statements. -/
def orderCountFallback : OrderCountRow :=
  { week := none, order_volume_48 := 0, order_volume_46 := 0,
    total_order_volume := none, order_percentage_48 := none,
    order_percentage_46 := none, ratio_46_48 := 0, ratio_48_46 := 0 }

/-- Witness for order_count_by_type_ratio_guard: a week whose only order
has origin 46 yields order_volume_48 = 0 and ratio_46_48 = 0. -/
theorem order_count_by_type_ratio_guard_witness :
    ((order_count_by_type [factOrigin46] (create_d_date 737000 737000)).head?.getD
      orderCountFallback).ratio_46_48 = 0 := by
  have hspine : fullOuterWeeks
      (orderCountCte [factOrigin46] (create_d_date 737000 737000) 48)
      (orderCountCte [factOrigin46] (create_d_date 737000 737000) 46)
      = [(none, some (some (weekStr 737000), 1))] := by decide
  refine (order_count_by_type_ratio_guard [factOrigin46] (create_d_date 737000 737000)
    ((order_count_by_type [factOrigin46] (create_d_date 737000 737000)).head?.getD
      orderCountFallback) ?_).1 (by decide)
  simp [order_count_by_type, hspine]

/-! ## C9: binned_order_volume is dense over dates and the six bins -/

/-- C9: the binned_order_volume output always has exactly
(number of dimension dates) x 6 rows, one per (date, bin) cell of the
cross join, regardless of pick activity, and a cell without a matching
aggregate entry carries the coalesced order count 0. -/
theorem binned_order_volume_dense (f : List FactRow) (d_date : List DDateRow) :
    (binned_order_volume f d_date).length = d_date.length * 6
    ∧ ∀ row ∈ binned_order_volume f d_date,
        ((binnedAgg f).find? (fun a => a.1.1 == row.date && a.1.2 == some row.bins))
            = none →
        row.order_volume = 0 := by
  constructor
  · rw [binned_order_volume, List.length_flatMap]
    have hmap : (List.map (List.length ∘ fun dr =>
        binLabels.map (fun lbl =>
          ({ date := dr.date, bins := lbl,
             order_volume :=
               (((binnedAgg f).find?
                 (fun a => a.1.1 == dr.date && a.1.2 == some lbl)).map
                   (fun a => a.2)).getD 0,
             week := dr.week, month := dr.month, quarter := dr.quarter,
             year_half := dr.year_half } : BOVRow))) d_date)
        = List.map (fun _ => 6) d_date := by
      apply List.map_congr_left
      intro dr _
      simp [binLabels]
    rw [hmap]
    induction d_date with
    | nil => rfl
    | cons dr t ih => simp [ih, Nat.mul_add, Nat.add_mul, Nat.add_comm]
  · intro row hrow hfind
    rcases List.mem_flatMap.1 hrow with ⟨dr, hdr, hmem⟩
    rcases List.mem_map.1 hmem with ⟨lbl, hlbl, hrfl⟩
    rw [← hrfl] at hfind ⊢
    simp only at hfind ⊢
    rw [hfind]
    rfl

/-- A fallback binned_order_volume row for head lookups in concrete
statements. -/
def binnedFallback : BOVRow :=
  { date := 0, bins := (""), order_volume := 5, week := (""), month := (""),
    quarter := (""), year_half := ("") }

/-- Witness for binned_order_volume_dense: an empty fact table over a
two-day dimension still yields 2 x 6 = 12 rows, and the first cell has the
coalesced order count 0. -/
theorem binned_order_volume_dense_witness :
    (binned_order_volume [] (create_d_date 737000 737001)).length = 12
    ∧ ((binned_order_volume [] (create_d_date 737000 737001)).head?.getD
        binnedFallback).order_volume = 0 := by
  constructor
  · rw [(binned_order_volume_dense [] (create_d_date 737000 737001)).1]
    decide
  · exact (binned_order_volume_dense [] (create_d_date 737000 737001)).2 _
      (by decide) (by decide)

/-! ## C10: the drill-down top-n ranking ignores its n argument -/

/-- A duplicate-free list holds any value at most once. -/
theorem count_le_one_of_nodup {α : Type} [BEq α] [LawfulBEq α] {l : List α}
    (h : List.Nodup l) (a : α) : l.count a ≤ 1 := by
  induction l with
  | nil => simp
  | cons b t ih =>
    rw [List.count_cons]
    rcases List.nodup_cons.1 h with ⟨hb, ht⟩
    by_cases hab : (b == a) = true
    · have hae : b = a := eq_of_beq hab
      subst hae
      have hz : t.count b = 0 := List.count_eq_zero.2 hb
      simp [hz, hab]
    · have hf : (b == a) = false := by simpa using hab
      rw [hf]
      simpa using ih ht

/-- Filtering the per-partition take-10 union to one partition key yields
at most 10 rows per occurrence of that key in the partition list. -/
theorem topn_filter_flatMap_le (cte : List TopNRow) (parts : List (Option String × Cell))
    (p : Option String × Cell) :
    ((parts.flatMap (fun q =>
        (List.insertionSort (fun a b => b.total_picks ≤ a.total_picks)
          (cte.filter (fun t => t.week == q.1 && decide (t.dd = q.2)))).take 10)).filter
      (fun t => t.week == p.1 && decide (t.dd = p.2))).length
      ≤ 10 * parts.count p := by
  induction parts with
  | nil => simp
  | cons q rest ih =>
    rw [List.flatMap_cons, List.filter_append, List.length_append, List.count_cons]
    by_cases hq : p = q
    · have h1 : (((List.insertionSort (fun a b => b.total_picks ≤ a.total_picks)
          (cte.filter (fun t => t.week == q.1 && decide (t.dd = q.2)))).take 10).filter
            (fun t => t.week == p.1 && decide (t.dd = p.2))).length ≤ 10 :=
        le_trans (List.length_filter_le _ _) (List.length_take_le _ _)
      have hbeq : (q == p) = true := beq_iff_eq.2 hq.symm
      have hone : (if (q == p) = true then 1 else 0) = 1 := by
        rw [hbeq]
        rfl
      rw [hone]
      omega
    · have h0 : ((List.insertionSort (fun a b => b.total_picks ≤ a.total_picks)
          (cte.filter (fun t => t.week == q.1 && decide (t.dd = q.2)))).take 10).filter
            (fun t => t.week == p.1 && decide (t.dd = p.2)) = [] := by
        rw [List.filter_eq_nil_iff]
        intro t ht hp
        have htq : t ∈ cte.filter (fun t => t.week == q.1 && decide (t.dd = q.2)) :=
          ((List.perm_insertionSort _ _).mem_iff).1 (List.take_subset _ _ ht)
        have hqs : t.week = q.1 ∧ t.dd = q.2 := by
          have h2 := (List.mem_filter.1 htq).2
          simp only [Bool.and_eq_true, beq_iff_eq, decide_eq_true_eq] at h2
          exact h2
        have hps : t.week = p.1 ∧ t.dd = p.2 := by
          simp only [Bool.and_eq_true, beq_iff_eq, decide_eq_true_eq] at hp
          exact hp
        apply hq
        have hpp : p = (t.week, t.dd) := by
          rw [hps.1, hps.2]
        rw [hpp, hqs.1, hqs.2]
      have hbeq : (q == p) = false := beq_eq_false_iff_ne.2 (Ne.symm hq)
      rw [h0, hbeq]
      simp only [Bool.false_eq_true, if_false, List.length_nil, Nat.add_zero, Nat.zero_add]
      exact ih

/-- C10: top_n_products_weekly_w_drill_down reassigns n to 10 internally,
so its output is identical for every n, and every (week, drill-down)
partition contributes at most 10 rows (rank at most 10). -/
theorem top_n_products_weekly_ignores_n (f : List FactRow) (d_date : List DDateRow)
    (drill : FactRow → Cell) (n : Nat) :
    top_n_products_weekly_w_drill_down f d_date drill n
      = top_n_products_weekly_w_drill_down f d_date drill 10
    ∧ ∀ p : Option String × Cell,
        ((top_n_products_weekly_w_drill_down f d_date drill n).filter
          (fun t => t.week == p.1 && decide (t.dd = p.2))).length ≤ 10 := by
  refine ⟨rfl, fun p => ?_⟩
  have h := topn_filter_flatMap_le (topTotalPicks f d_date drill)
    (((topTotalPicks f d_date drill).map (fun t => (t.week, t.dd))).dedup) p
  have hcount : (((topTotalPicks f d_date drill).map
      (fun t => (t.week, t.dd))).dedup).count p ≤ 1 :=
    count_le_one_of_nodup (List.nodup_dedup _) p
  simp only [top_n_products_weekly_w_drill_down]
  omega
